import Mathlib

/-!
Verification of the bot supervisor in `backend/aegis/bot/runner.py`
(class `BotRunner`).

Two embeddings are used, both translated directly from the source:

1. A straight-line functional model of `BotRunner.start` and
   `BotRunner.stop`, recording their externally visible effects as an
   event trace.  Calls into the opaque platform modules
   (`stop_telegram_bot`, `stop_discord_bot`) are parameterised by a
   boolean saying whether that call raises; a raising call is an
   `Except.error`, and the `try/except` blocks of the source are
   translated as matches on that `Except`.

2. A small-step transition system for one supervised bot task
   (`BotRunner._run_telegram_bot`; `_run_discord_bot` is structurally
   identical), covering the crash-restart loop, the 30-second
   cool-down sleep, the re-check of `self.running`, cancellation, and
   the reassignment of the stored task handle on restart.
-/

namespace AegisRunner

/-! ## Configuration (`aegis.core.config.settings` fields read by `start`) -/

/-- The four `settings` fields consulted by `BotRunner.start`. -/
structure Settings where
  enable_telegram_bot : Bool
  telegram_bot_token : Option String
  enable_discord_bot : Bool
  discord_bot_token : Option String

/-- Python truthiness of an optional string credential: `None` and the
empty string are falsy, every other string is truthy.  This is the
test performed by `if settings.enable_telegram_bot and
settings.telegram_bot_token:`. -/
def pyTruthy : Option String → Bool
  | none => false
  | some s => !(s == "")

/-- The telegram worker is started iff its flag is set and its token is
truthy (runner.py line 38). -/
def telegramEnabled (cfg : Settings) : Bool :=
  cfg.enable_telegram_bot && pyTruthy cfg.telegram_bot_token

/-- The discord worker is started iff its flag is set and its token is
truthy (runner.py line 45). -/
def discordEnabled (cfg : Settings) : Bool :=
  cfg.enable_discord_bot && pyTruthy cfg.discord_bot_token

/-! ## Runner state (`BotRunner.__init__`) -/

/-- The mutable fields of `BotRunner`: the two stored task handles
(opaque, modelled as `Option Nat`) and the `running` flag. -/
structure RunnerState where
  telegram_task : Option Nat
  discord_task : Option Nat
  running : Bool
deriving DecidableEq

/-- `BotRunner.__init__`: both handles are `None`, `running` is false. -/
def initRunner : RunnerState :=
  { telegram_task := none, discord_task := none, running := false }

/-- Externally visible effects of `start` and `stop`, in program order. -/
inductive Event
  | spawnTelegram
  | spawnDiscord
  | cancelTelegram
  | cancelDiscord
  | callStopTelegram
  | callStopDiscord
  | logErrorStopTelegram
  | logErrorStopDiscord
  | logNoBotsEnabled
  | installSignalHandlers
  | gatherTasks
deriving DecidableEq

/-! ## `BotRunner.start` -/

/-- Translation of `BotRunner.start` (runner.py lines 30-69).  Sets
`running := true`, spawns a task per enabled worker, and either logs
the no-bots configuration error and returns (no signal handlers, no
gather) or installs the signal handlers and gathers the tasks.
Returns the updated state and the trace of effects. -/
def start (cfg : Settings) (st : RunnerState) : RunnerState × List Event :=
  let st1 : RunnerState := { st with running := true }
  let st2 : RunnerState :=
    if telegramEnabled cfg then { st1 with telegram_task := some 0 } else st1
  let tasks1 : List Nat := if telegramEnabled cfg then [0] else []
  let st3 : RunnerState :=
    if discordEnabled cfg then { st2 with discord_task := some 1 } else st2
  let tasks2 : List Nat := tasks1 ++ (if discordEnabled cfg then [1] else [])
  let evs : List Event :=
    (if telegramEnabled cfg then [Event.spawnTelegram] else [])
      ++ (if discordEnabled cfg then [Event.spawnDiscord] else [])
  if tasks2 = [] then
    (st3, evs ++ [Event.logNoBotsEnabled])
  else
    (st3, evs ++ [Event.installSignalHandlers, Event.gatherTasks])

/-! ## `BotRunner.stop` -/

/-- The opaque platform call `stop_telegram_bot()`; the parameter says
whether this particular invocation raises. -/
def stop_telegram_bot (raises : Bool) : Except String Unit :=
  if raises then Except.error "telegram stop failed" else Except.ok ()

/-- The opaque platform call `stop_discord_bot()`; the parameter says
whether this particular invocation raises. -/
def stop_discord_bot (raises : Bool) : Except String Unit :=
  if raises then Except.error "discord stop failed" else Except.ok ()

/-- Translation of `BotRunner.stop` (runner.py lines 71-95).  Sets
`running := false`, cancels each stored task handle that is not
`None`, then calls each platform stop function inside its own
`try/except` (translated as a match on the `Except` result, with the
error branch logging).  The final `Except.ok` records that `stop`
itself never raises: every raising call site sits inside a `try`. -/
def stop (tgRaises dcRaises : Bool) (st : RunnerState) :
    Except String (RunnerState × List Event) :=
  let st1 : RunnerState := { st with running := false }
  let evCancel : List Event :=
    (if st1.telegram_task.isSome then [Event.cancelTelegram] else [])
      ++ (if st1.discord_task.isSome then [Event.cancelDiscord] else [])
  let evTg : List Event :=
    Event.callStopTelegram ::
      (match stop_telegram_bot tgRaises with
        | Except.ok _ => []
        | Except.error _ => [Event.logErrorStopTelegram])
  let evDc : List Event :=
    Event.callStopDiscord ::
      (match stop_discord_bot dcRaises with
        | Except.ok _ => []
        | Except.error _ => [Event.logErrorStopDiscord])
  Except.ok (st1, evCancel ++ evTg ++ evDc)

/-- The state left behind by a `stop` call. -/
def stopState (tgRaises dcRaises : Bool) (st : RunnerState) : RunnerState :=
  match stop tgRaises dcRaises st with
  | Except.ok p => p.1
  | Except.error _ => st

/-- The event trace of a `stop` call. -/
def stopEvents (tgRaises dcRaises : Bool) (st : RunnerState) : List Event :=
  match stop tgRaises dcRaises st with
  | Except.ok p => p.2
  | Except.error _ => []

/-! ## Supervised task transition system (`_run_telegram_bot`) -/

/-- Outcome of one invocation of the opaque worker `start_telegram_bot()`
on a given attempt: it raises an exception, returns normally, or runs
forever (never reaches a result). -/
inductive Outcome
  | raises
  | normalReturn
  | runForever
deriving DecidableEq

/-- Where the supervised task is in the body of `_run_telegram_bot`:
executing `start_telegram_bot()` on attempt `a`; sleeping in
`asyncio.sleep(30)` after a crash of attempt `a` with `t` time units
of the sleep remaining; or finished (the coroutine returned or was
cancelled). -/
inductive Phase
  | running : Nat → Phase
  | cooldown : Nat → Nat → Phase
  | finished : Phase
deriving DecidableEq

/-- State of the runner as seen by one supervised task: the `running`
flag, the phase of the task body, and the stored `telegram_task`
handle.  Handles are identified with the attempt number whose task
they were created for. -/
structure SysState where
  running : Bool
  phase : Phase
  handle : Option Nat
deriving DecidableEq

/-- Small-step semantics of `_run_telegram_bot` (runner.py lines
97-111) interleaved with calls to `stop`.  A behaviour `beh` gives the
outcome of the worker body on each attempt.

* `crash_running` / `crash_stopped`: `start_telegram_bot()` raised; the
  `except Exception` handler checks `if self.running:` and either
  enters the 30 unit cool-down sleep or falls off the end of the
  coroutine.  The check and the entry into the sleep are one step:
  cooperative scheduling admits no interleaving between them.
* `ret`: `start_telegram_bot()` returned normally; control falls out of
  the `try` block past all handlers and the coroutine ends.
* `tick`: one time unit of the cool-down sleep elapses.
* `wake_running` / `wake_stopped`: the sleep ends and `if self.running:`
  is re-checked; if still true a fresh task for attempt `a + 1` is
  created and assigned to `self.telegram_task`, else the coroutine ends.
* `stopCall`: `stop()` runs, setting `self.running := false` (its
  cancellation of the handle is delivered separately, at the next
  suspension point of the task).
* `cancel`: the pending cancellation after a `stop` is delivered at the
  current suspension point; `except asyncio.CancelledError: raise`
  re-raises it during the worker body, and during the cool-down sleep
  it propagates out of the handler; either way the coroutine ends with
  no restart. -/
inductive Step (beh : Nat → Outcome) : SysState → SysState → Prop
  | crash_running (a : Nat) (h : Option Nat) :
      beh a = Outcome.raises →
      Step beh ⟨true, Phase.running a, h⟩ ⟨true, Phase.cooldown a 30, h⟩
  | crash_stopped (a : Nat) (h : Option Nat) :
      beh a = Outcome.raises →
      Step beh ⟨false, Phase.running a, h⟩ ⟨false, Phase.finished, h⟩
  | ret (r : Bool) (a : Nat) (h : Option Nat) :
      beh a = Outcome.normalReturn →
      Step beh ⟨r, Phase.running a, h⟩ ⟨r, Phase.finished, h⟩
  | tick (r : Bool) (a t : Nat) (h : Option Nat) :
      Step beh ⟨r, Phase.cooldown a (t + 1), h⟩ ⟨r, Phase.cooldown a t, h⟩
  | wake_running (a : Nat) (h : Option Nat) :
      Step beh ⟨true, Phase.cooldown a 0, h⟩
        ⟨true, Phase.running (a + 1), some (a + 1)⟩
  | wake_stopped (a : Nat) (h : Option Nat) :
      Step beh ⟨false, Phase.cooldown a 0, h⟩ ⟨false, Phase.finished, h⟩
  | stopCall (r : Bool) (ph : Phase) (h : Option Nat) :
      Step beh ⟨r, ph, h⟩ ⟨false, ph, h⟩
  | cancel (ph : Phase) (h : Option Nat) :
      Step beh ⟨false, ph, h⟩ ⟨false, Phase.finished, h⟩

/-- Reflexive-transitive closure of `Step`: the states an execution can
pass through. -/
inductive Reach (beh : Nat → Outcome) : SysState → SysState → Prop
  | refl (s : SysState) : Reach beh s s
  | tail {s t u : SysState} : Reach beh s t → Step beh t u → Reach beh s u

/-! ### Deterministic projection while no stop call interleaves

While `self.running` stays true and no cancellation is delivered, the
task evolves deterministically; `run1` is that projection of `Step`
(a `runForever` attempt, having no step, stays put). -/

/-- One deterministic step of the task body while `running` is true. -/
def run1 (beh : Nat → Outcome) : Phase → Phase
  | Phase.running a =>
      match beh a with
      | Outcome.raises => Phase.cooldown a 30
      | Outcome.normalReturn => Phase.finished
      | Outcome.runForever => Phase.running a
  | Phase.cooldown a (t + 1) => Phase.cooldown a t
  | Phase.cooldown a 0 => Phase.running (a + 1)
  | Phase.finished => Phase.finished

/-- `n` deterministic steps from an arbitrary phase. -/
def iter (beh : Nat → Outcome) : Nat → Phase → Phase
  | 0, p => p
  | n + 1, p => run1 beh (iter beh n p)

/-- `n` deterministic steps of the task from its initial spawn
(attempt 0, worker body just entered). -/
def runN (beh : Nat → Outcome) (n : Nat) : Phase :=
  iter beh n (Phase.running 0)

/-- Worker behaviour that raises on every attempt. -/
def behCrash : Nat → Outcome := fun _ => Outcome.raises

/-- Worker behaviour that raises on attempt 0 and runs forever on every
later attempt. -/
def behOnce : Nat → Outcome
  | 0 => Outcome.raises
  | _ + 1 => Outcome.runForever

/-- Worker behaviour that returns normally on every attempt. -/
def behNormal : Nat → Outcome := fun _ => Outcome.normalReturn

/-! ## Helper lemmas on the deterministic projection -/

/-- Peeling the first (innermost) application of `run1` off an
iteration. -/
theorem iter_succ_inner (beh : Nat → Outcome) (n : Nat) (p : Phase) :
    iter beh (n + 1) p = iter beh n (run1 beh p) := by
  induction n with
  | zero => rfl
  | succ n ih =>
      show run1 beh (iter beh (n + 1) p) = iter beh (n + 1) (run1 beh p)
      rw [ih]
      rfl

/-- Iteration splits over addition of step counts. -/
theorem iter_add (beh : Nat → Outcome) (m n : Nat) (p : Phase) :
    iter beh (m + n) p = iter beh m (iter beh n p) := by
  induction m with
  | zero => rw [Nat.zero_add]; rfl
  | succ m ih =>
      have : m + 1 + n = (m + n) + 1 := by omega
      rw [this]
      show run1 beh (iter beh (m + n) p) = run1 beh (iter beh m (iter beh n p))
      rw [ih]

/-- The cool-down sleep counts down to zero and, with `running` still
true, re-spawns the worker: `t + 1` deterministic steps take
`cooldown a t` to `running (a + 1)`. -/
theorem iter_cooldown (beh : Nat → Outcome) (a t : Nat) :
    iter beh (t + 1) (Phase.cooldown a t) = Phase.running (a + 1) := by
  induction t with
  | zero => rfl
  | succ t ih =>
      rw [iter_succ_inner]
      show iter beh (t + 1) (Phase.cooldown a t) = Phase.running (a + 1)
      exact ih

/-- For an always-raising worker, 32 deterministic steps complete one
full crash-restart cycle: crash, 30 ticks of sleep, wake. -/
theorem iter_behCrash_cycle (a : Nat) :
    iter behCrash 32 (Phase.running a) = Phase.running (a + 1) := by
  show iter behCrash (31 + 1) (Phase.running a) = Phase.running (a + 1)
  rw [iter_succ_inner]
  show iter behCrash (30 + 1) (Phase.cooldown a 30) = Phase.running (a + 1)
  exact iter_cooldown behCrash a 30

/-- An always-raising worker is restarted without bound: after `32 * n`
deterministic steps it is executing attempt `n`. -/
theorem runN_behCrash (n : Nat) : runN behCrash (32 * n) = Phase.running n := by
  induction n with
  | zero => rfl
  | succ n ih =>
      have h : 32 * (n + 1) = 32 + 32 * n := by omega
      unfold runN at *
      rw [h, iter_add, ih]
      exact iter_behCrash_cycle n

/-- A worker that crashes once and then runs forever stays on attempt 1
for good after its single restart. -/
theorem runN_behOnce_stable (m : Nat) :
    runN behOnce (32 + m) = Phase.running 1 := by
  induction m with
  | zero => decide
  | succ m ih =>
      have h : 32 + (m + 1) = (32 + m) + 1 := rfl
      unfold runN at *
      rw [h]
      show run1 behOnce (iter behOnce (32 + m) (Phase.running 0)) = Phase.running 1
      rw [ih]
      rfl

/-- A step from a state with the `running` flag false leaves the flag
false: no step of the system ever sets it back to true. -/
theorem step_preserves_stopped {beh : Nat → Outcome} {s s' : SysState}
    (hs : Step beh s s') (h : s.running = false) : s'.running = false := by
  cases hs <;> simp_all

/-- With the `running` flag false, a step never moves the task into the
worker body: if the phase was not `running` before, it is not after. -/
theorem step_no_new_run {beh : Nat → Outcome} {s s' : SysState}
    (hs : Step beh s s') (h : s.running = false)
    (hp : ∀ b, s.phase ≠ Phase.running b) : ∀ b, s'.phase ≠ Phase.running b := by
  cases hs <;> simp_all

/-- Along any execution from a stopped state whose task is not in the
worker body, the flag stays false and the task never enters the worker
body. -/
theorem reach_stopped_no_run {beh : Nat → Outcome} {s s' : SysState}
    (hr : Reach beh s s') (h : s.running = false)
    (hp : ∀ b, s.phase ≠ Phase.running b) :
    s'.running = false ∧ ∀ b, s'.phase ≠ Phase.running b := by
  induction hr with
  | refl => exact ⟨h, hp⟩
  | tail hr hst ih => exact ⟨step_preserves_stopped hst ih.1, step_no_new_run hst ih.1 ih.2⟩

/-- The stored handle names the attempt the task is currently executing
or cooling down from. -/
def handleInv (s : SysState) : Prop :=
  (∀ a, s.phase = Phase.running a → s.handle = some a)
  ∧ ∀ a t, s.phase = Phase.cooldown a t → s.handle = some a

/-- Every step preserves `handleInv`: in particular the restart step
reassigns the stored handle to the freshly spawned attempt. -/
theorem step_handleInv {beh : Nat → Outcome} {s s' : SysState}
    (hs : Step beh s s') (h : handleInv s) : handleInv s' := by
  obtain ⟨h1, h2⟩ := h
  cases hs with
  | crash_running a h0 hb =>
      refine ⟨(by intro b hb2; cases hb2), ?_⟩
      intro b t hb2
      cases hb2
      exact h1 a rfl
  | crash_stopped a h0 hb => exact ⟨(by intro b hb2; cases hb2), (by intro b t hb2; cases hb2)⟩
  | ret r a h0 hb => exact ⟨(by intro b hb2; cases hb2), (by intro b t hb2; cases hb2)⟩
  | tick r a t h0 =>
      refine ⟨(by intro b hb2; cases hb2), ?_⟩
      intro b u hb2
      cases hb2
      exact h2 a (t + 1) rfl
  | wake_running a h0 =>
      refine ⟨?_, (by intro b t hb2; cases hb2)⟩
      intro b hb2
      cases hb2
      rfl
  | wake_stopped a h0 => exact ⟨(by intro b hb2; cases hb2), (by intro b t hb2; cases hb2)⟩
  | stopCall r ph h0 => exact ⟨h1, h2⟩
  | cancel ph h0 => exact ⟨(by intro b hb2; cases hb2), (by intro b t hb2; cases hb2)⟩

/-- `handleInv` holds in every state reachable from one satisfying it. -/
theorem reach_handleInv {beh : Nat → Outcome} {s s' : SysState}
    (hr : Reach beh s s') (h : handleInv s) : handleInv s' := by
  induction hr with
  | refl => exact h
  | tail hr hst ih => exact step_handleInv hst ih

/-! ## Claim theorems on the supervised-task model -/

/-- C1: a worker whose body raises while the `running` flag is true
enters a 30 unit cool-down, after which, the flag still being true, a
fresh run of the same worker is spawned with the attempt count
incremented; this repeats without bound (an always-raising worker is
on attempt `n` after `32 * n` steps), and a worker that raises once
and then runs forever is restarted exactly once, the restart coming
only after the full cool-down has elapsed. -/
theorem crash_restart_policy :
    (∀ (beh : Nat → Outcome) (a : Nat) (h : Option Nat), beh a = Outcome.raises →
        Step beh ⟨true, Phase.running a, h⟩ ⟨true, Phase.cooldown a 30, h⟩)
    ∧ (∀ (beh : Nat → Outcome) (a : Nat) (h : Option Nat),
        Step beh ⟨true, Phase.cooldown a 0, h⟩
          ⟨true, Phase.running (a + 1), some (a + 1)⟩)
    ∧ (∀ n : Nat, runN behCrash (32 * n) = Phase.running n)
    ∧ (runN behOnce 1 = Phase.cooldown 0 30
        ∧ runN behOnce 31 = Phase.cooldown 0 0
        ∧ runN behOnce 32 = Phase.running 1
        ∧ ∀ m : Nat, runN behOnce (32 + m) = Phase.running 1) := by
  refine ⟨?_, ?_, runN_behCrash, ?_, ?_, ?_, runN_behOnce_stable⟩
  · intro beh a h hb
    exact Step.crash_running a h hb
  · intro beh a h
    exact Step.wake_running a h
  · decide
  · decide
  · decide

/-- Witness for C1: the always-raising worker concretely takes the
crash step into the cool-down on attempt 0. -/
theorem crash_restart_policy_witness :
    Step behCrash ⟨true, Phase.running 0, none⟩ ⟨true, Phase.cooldown 0 30, none⟩ :=
  crash_restart_policy.1 behCrash 0 none rfl

/-- C2: from any state where `stop()` has already set the `running`
flag to false and the task is in its cool-down wait, the task never
re-enters the worker body; and in general, once the flag is false, no
single step moves a task into the worker body that was not already
there. -/
theorem stop_prevents_restart :
    (∀ (beh : Nat → Outcome) (a t : Nat) (h : Option Nat) (s' : SysState),
        Reach beh ⟨false, Phase.cooldown a t, h⟩ s' →
        ∀ b, s'.phase ≠ Phase.running b)
    ∧ (∀ (beh : Nat → Outcome) (s s' : SysState), Step beh s s' →
        s.running = false → ∀ b, s'.phase = Phase.running b →
        s.phase = Phase.running b) := by
  constructor
  · intro beh a t h s' hr b
    exact (reach_stopped_no_run hr rfl (by intro b hb; cases hb)).2 b
  · intro beh s s' hst hr b hb
    cases hst <;> simp_all

/-- Witness for C2: from a stopped state in mid cool-down, the state
itself is not in the worker body. -/
theorem stop_prevents_restart_witness :
    (SysState.mk false (Phase.cooldown 0 30) none).phase ≠ Phase.running 0 :=
  stop_prevents_restart.1 behCrash 0 30 none _ (Reach.refl _) 0

/-- C4 counterexample: a worker body that returns normally while the
flag is true is not treated as a crash: one step takes it to
`finished`, whereas a raising body goes to the cool-down; after 40
steps the normally-returning worker is still `finished`, never having
been restarted. -/
theorem normal_return_counterexample :
    run1 behNormal (Phase.running 0) = Phase.finished
    ∧ run1 behCrash (Phase.running 0) = Phase.cooldown 0 30
    ∧ runN behNormal 40 = Phase.finished
    ∧ Phase.finished ≠ Phase.cooldown 0 30 := by decide

/-- C4 amended: when the worker body returns normally, the coroutine
falls past the exception handlers and ends; the restart policy is
never applied (no step from such a state reaches a cool-down), and the
deterministic run of an always-returning worker is `finished` from
step 1 on. -/
theorem normal_return_no_restart :
    (∀ (beh : Nat → Outcome) (r : Bool) (a : Nat) (h : Option Nat),
        beh a = Outcome.normalReturn →
        Step beh ⟨r, Phase.running a, h⟩ ⟨r, Phase.finished, h⟩
        ∧ ∀ s', Step beh ⟨r, Phase.running a, h⟩ s' →
            ∀ b t, s'.phase ≠ Phase.cooldown b t)
    ∧ ∀ n : Nat, runN behNormal (1 + n) = Phase.finished := by
  constructor
  · intro beh r a h hb
    refine ⟨Step.ret r a h hb, ?_⟩
    intro s' hs b t
    cases hs <;> simp_all
  · intro n
    induction n with
    | zero => rfl
    | succ n ih =>
        show runN behNormal ((1 + n) + 1) = Phase.finished
        unfold runN at *
        show run1 behNormal (iter behNormal (1 + n) (Phase.running 0)) = Phase.finished
        rw [ih]
        rfl


/-- Witness for C4: the always-returning worker concretely takes the
normal-return step to `finished`. -/
theorem normal_return_no_restart_witness :
    Step behNormal ⟨true, Phase.running 0, none⟩ ⟨true, Phase.finished, none⟩ :=
  (normal_return_no_restart.1 behNormal true 0 none rfl).1

/-- C9: in every state reachable from the initial spawn (attempt 0,
handle stored as attempt 0), the stored task handle names the current
attempt, both while the worker body runs and during its cool-down; the
handle a later `stop()` cancels is therefore always the most recent
execution. -/
theorem stored_handle_is_latest_attempt :
    ∀ (beh : Nat → Outcome) (s : SysState),
      Reach beh ⟨true, Phase.running 0, some 0⟩ s →
      (∀ a, s.phase = Phase.running a → s.handle = some a)
      ∧ ∀ a t, s.phase = Phase.cooldown a t → s.handle = some a := by
  intro beh s hr
  have h0 : handleInv ⟨true, Phase.running 0, some 0⟩ := by
    constructor
    · intro a ha
      cases ha
      rfl
    · intro a t ha
      cases ha
  exact reach_handleInv hr h0

/-- Witness for C9: at the initial spawn itself the stored handle is
attempt 0. -/
theorem stored_handle_is_latest_attempt_witness :
    (SysState.mk true (Phase.running 0) (some 0)).handle = some 0 :=
  (stored_handle_is_latest_attempt behCrash _ (Reach.refl _)).1 0 rfl

/-! ## Claim theorems on `start` and `stop` -/

/-- Configuration with both workers disabled. -/
def cfgNone : Settings :=
  { enable_telegram_bot := false, telegram_bot_token := none,
    enable_discord_bot := false, discord_bot_token := none }

/-- Configuration with the telegram worker enabled (token present) and
the discord worker disabled. -/
def cfgTelegramOnly : Settings :=
  { enable_telegram_bot := true, telegram_bot_token := some "x",
    enable_discord_bot := false, discord_bot_token := none }

/-- Runner state holding a live task handle for each worker. -/
def stTwoTasks : RunnerState :=
  { telegram_task := some 0, discord_task := some 1, running := true }

/-- C3 counterexample: with no workers enabled, `start` on a fresh
runner does change the supervisor state: the `running` flag is true
after the call though it was false before, because `start` sets it
before checking whether any worker is enabled and never resets it. -/
theorem start_no_workers_counterexample :
    (start cfgNone initRunner).1.running = true
    ∧ initRunner.running = false := by decide

/-- C3 amended: with no workers enabled, `start` logs the configuration
error and returns without blocking, spawning no tasks, installing no
signal handlers and leaving both task handles unchanged; however it
sets the `running` flag to true on entry and leaves it true. -/
theorem start_no_workers_behavior :
    ∀ (cfg : Settings) (st : RunnerState),
      telegramEnabled cfg = false → discordEnabled cfg = false →
      start cfg st = ({ st with running := true }, [Event.logNoBotsEnabled]) := by
  intro cfg st h1 h2
  simp [start, h1, h2]

/-- Witness for C3 amended: concretely, with everything disabled, the
fresh runner ends with `running` true and only the error log event. -/
theorem start_no_workers_behavior_witness :
    start cfgNone initRunner
      = ({ initRunner with running := true }, [Event.logNoBotsEnabled]) :=
  start_no_workers_behavior cfgNone initRunner rfl rfl

/-- C5: `start` emits exactly one spawn per enabled worker and none for
a disabled one, where a worker is enabled iff its flag is set and its
credential is present (truthy); it reaches the blocking gather iff at
least one worker is enabled, so with none enabled it spawns nothing
and returns immediately. -/
theorem start_spawns_per_enabled :
    ∀ (cfg : Settings) (st : RunnerState),
      ((start cfg st).2.count Event.spawnTelegram
          = if telegramEnabled cfg then 1 else 0)
      ∧ ((start cfg st).2.count Event.spawnDiscord
          = if discordEnabled cfg then 1 else 0)
      ∧ (Event.gatherTasks ∈ (start cfg st).2
          ↔ (telegramEnabled cfg || discordEnabled cfg) = true) := by
  intro cfg st
  cases h1 : telegramEnabled cfg <;> cases h2 : discordEnabled cfg <;>
    simp [start, h1, h2]

/-- C6 counterexample: calling `stop` twice on a runner with two live
handles cancels each handle twice and delivers the platform stop call
twice, since `stop` has no guard against re-entry. -/
theorem stop_twice_counterexample :
    List.count Event.callStopTelegram
        (stopEvents false false stTwoTasks
          ++ stopEvents false false (stopState false false stTwoTasks)) = 2
    ∧ List.count Event.cancelTelegram
        (stopEvents false false stTwoTasks
          ++ stopEvents false false (stopState false false stTwoTasks)) = 2 := by
  decide

/-- C6 amended: a second `stop` never raises and returns exactly the
state the first left (idempotent on state), but it repeats the same
effects: it cancels the still-stored handles again and invokes each
platform stop function again, so workers do receive duplicate stop
signals (each single call delivers exactly one per platform). -/
theorem stop_twice_state_idempotent :
    ∀ (tgR dcR : Bool) (st : RunnerState),
      stop tgR dcR (stopState tgR dcR st)
        = Except.ok (stopState tgR dcR st, stopEvents tgR dcR st)
      ∧ List.count Event.callStopTelegram (stopEvents tgR dcR st) = 1
      ∧ List.count Event.callStopDiscord (stopEvents tgR dcR st) = 1 := by
  intro tgR dcR st
  rcases st with ⟨tg, dc, r⟩
  cases tg <;> cases dc <;> cases tgR <;> cases dcR <;>
    simp [stop, stopState, stopEvents, stop_telegram_bot, stop_discord_bot]

/-- C7: when the telegram stop call raises during shutdown, the discord
worker still receives its stop call exactly once, the telegram failure
is caught and logged, and `stop` itself completes normally without
propagating the exception. -/
theorem stop_failure_isolated :
    ∀ (dcR : Bool) (st : RunnerState),
      stop true dcR st = Except.ok (stopState true dcR st, stopEvents true dcR st)
      ∧ List.count Event.callStopDiscord (stopEvents true dcR st) = 1
      ∧ Event.logErrorStopTelegram ∈ stopEvents true dcR st := by
  intro dcR st
  rcases st with ⟨tg, dc, r⟩
  cases tg <;> cases dc <;> cases dcR <;>
    simp [stop, stopState, stopEvents, stop_telegram_bot, stop_discord_bot]

/-- C8 counterexample: in the scenario with telegram enabled and
discord disabled, `stop` after `start` still invokes the discord
platform stop function once, so the disabled worker is not left
entirely untouched. -/
theorem disabled_worker_stop_counterexample :
    List.count Event.callStopDiscord
      (stopEvents false false (start cfgTelegramOnly initRunner).1) = 1 := by
  decide

/-- C8 amended: with telegram enabled and discord disabled, `start`
spawns exactly one task (telegram) and stores no discord handle; a
subsequent `stop` cancels the telegram handle once, delivers exactly
one stop call to telegram, and attempts no cancellation on discord —
but the discord platform stop function is still invoked once (its
errors caught), even though discord never ran. -/
theorem scenario_A_enabled_B_disabled :
    (start cfgTelegramOnly initRunner).2.count Event.spawnTelegram = 1
    ∧ (start cfgTelegramOnly initRunner).2.count Event.spawnDiscord = 0
    ∧ (start cfgTelegramOnly initRunner).1.discord_task = none
    ∧ List.count Event.cancelTelegram
        (stopEvents false false (start cfgTelegramOnly initRunner).1) = 1
    ∧ List.count Event.callStopTelegram
        (stopEvents false false (start cfgTelegramOnly initRunner).1) = 1
    ∧ List.count Event.cancelDiscord
        (stopEvents false false (start cfgTelegramOnly initRunner).1) = 0
    ∧ List.count Event.callStopDiscord
        (stopEvents false false (start cfgTelegramOnly initRunner).1) = 1 := by
  decide

/-- C10: `stop` on a freshly constructed runner never raises whatever
the platform stop calls do: both handles are `None` so no cancellation
is attempted, the `running` flag ends false, each platform stop
function is invoked exactly once, and a raising stop call is caught
and logged rather than propagated. -/
theorem stop_on_fresh_runner :
    ∀ (tgR dcR : Bool),
      stop tgR dcR initRunner
        = Except.ok
            ({ telegram_task := none, discord_task := none, running := false },
              stopEvents tgR dcR initRunner)
      ∧ List.count Event.cancelTelegram (stopEvents tgR dcR initRunner) = 0
      ∧ List.count Event.cancelDiscord (stopEvents tgR dcR initRunner) = 0
      ∧ List.count Event.callStopTelegram (stopEvents tgR dcR initRunner) = 1
      ∧ List.count Event.callStopDiscord (stopEvents tgR dcR initRunner) = 1
      ∧ (Event.logErrorStopTelegram ∈ stopEvents tgR dcR initRunner ↔ tgR = true)
      ∧ (Event.logErrorStopDiscord ∈ stopEvents tgR dcR initRunner ↔ dcR = true) := by
  intro tgR dcR
  cases tgR <;> cases dcR <;>
    simp [stop, stopState, stopEvents, stop_telegram_bot, stop_discord_bot, initRunner]

end AegisRunner
